import Mathlib

/-!
Shallow embedding of `module_utils/oracle/oci_wait_utils.py`: the
polling-based completion-waiter framework of oci-ansible-modules.

Python objects are modelled as follows. A module-parameter value is a
`PVal` (Python string / int / bool / None, with Python truthiness).
`module.params` is an association list `Params`. An OCI response object
is a `Response` (a `data` record plus response headers); the `data`
record `RData` carries exactly the attributes the waiter code reads
(`id`, `lifecycle_state`, `status`, `retention_period_days`,
`resources`), each `Option`-valued or `PVal`-valued where the Python SDK
model would hold `None`. Stateful methods are embedded in the state
monad `M` over `MState` (the mutable `module.params` plus a log of the
resource fetches performed); Python exceptions (`NotImplementedError`,
`KeyError`, fetch failures, `module.fail_json`, poll timeout) are the
error component, and an error carries the state at the raise point so
that mutations left behind by an exceptional exit are observable.

External collaborators (the OCI SDK client, `oci.util.to_dict`,
`oci_common_utils.get_entity_type`, the resource helper's accessors) are
function-valued parameters bundled in `Client` / `ResourceHelper`.
-/

namespace OciWaitUtils

/-- A Python parameter value: string, integer, boolean or None. -/
inductive PVal where
  | none_ : PVal
  | str : String → PVal
  | int : Int → PVal
  | bool : Bool → PVal
deriving DecidableEq, Repr

/-- Python truthiness of a `PVal` (`None`, `""`, `0`, `False` are falsy). -/
def PVal.truthy : PVal → Bool
  | .none_ => false
  | .str s => s ≠ ""
  | .int n => n ≠ 0
  | .bool b => b

/-- Truthiness of an optional value, as Python `bool(d.get(k))`:
a missing key gives `None`, which is falsy. -/
def optTruthy : Option PVal → Bool
  | some v => v.truthy
  | none => false

/-- The `module.params` dictionary: an association list from parameter
name to value. -/
abbrev Params := List (String × PVal)

/-- Dictionary read `params.get(k)`: first binding of `k`, if any. -/
def getParam : Params → String → Option PVal
  | [], _ => none
  | (k', v) :: rest, k => if k' = k then some v else getParam rest k

/-- Dictionary write `params[k] = v`: updates the first binding of `k`
in place, or appends a new binding when `k` is absent. -/
def setParam : Params → String → PVal → Params
  | [], k, v => [(k, v)]
  | (k', v') :: rest, k, v =>
      if k' = k then (k, v) :: rest else (k', v') :: setParam rest k v

/-- One entry of a work request's `resources` list: `entity_type` is
`none` when the Python object lacks the attribute (`hasattr` false). -/
structure WRResource where
  entity_type : Option String
  identifier : PVal
deriving DecidableEq, Repr

/-- The `data` record of an OCI response, restricted to the attributes
this module reads. An `Option`/`PVal.none_` field models the Python
attribute holding `None`. -/
structure RData where
  id : PVal := .none_
  lifecycle_state : Option String := none
  status : Option String := none
  retention_period_days : PVal := .none_
  resources : List WRResource := []
deriving DecidableEq, Repr

/-- An OCI response: payload `data` plus response headers. -/
structure Response where
  data : RData
  headers : List (String × String) := []
deriving DecidableEq, Repr

/-- One observable fetch performed through the resource helper or the
client: a `get_resource()` call (recording the `module.params` it ran
under), a `client.get_work_request(id)` call, or a `get_get_fn()(id)`
call. -/
inductive FetchEvent where
  | getResource (ps : Params)
  | getWorkRequest (id : String)
  | getById (id : PVal)
deriving DecidableEq, Repr

/-- The mutable state threaded through a wait: the shared
`module.params` and the log of fetches performed so far. -/
structure MState where
  params : Params
  fetchLog : List FetchEvent := []
deriving DecidableEq, Repr

/-- A Python exception or fatal exit observable from this module:
`NotImplementedError`, `KeyError`, a fetch failure, `module.fail_json`,
or the poll timeout raised by `oci.wait_until`. -/
inductive PyErr where
  | notImplemented
  | keyError (k : String)
  | fetchError (e : String)
  | failJson (msg : String)
  | timeout
deriving DecidableEq, Repr

/-- State-and-exception monad for the waiter methods. An error carries
the state at the raise point, so a mutation that is not rolled back
before an exceptional exit is visible in the result. -/
abbrev M (α : Type) := MState → Except (PyErr × MState) (α × MState)

/-- The resource helper collaborator: namespace and resource type, the
identifier-parameter resolver (`.error ()` models it raising
`NotImplementedError`), the `get_resource` accessor (reading the current
`module.params`, possibly raising), and the get-by-id function. -/
structure ResourceHelper where
  namespace_ : String
  resource_type : String
  get_module_resource_id_param : Except Unit String
  get_resource : Params → Except String Response
  get_get_fn : PVal → Response

/-- The service client collaborator, exposing `get_work_request`. -/
structure Client where
  get_work_request : String → Response

/-- Monadic wrapper for `resource_helper.get_resource()`: logs the fetch
(with the parameters it observed) and raises `fetchError` on failure. -/
def getResourceM (rh : ResourceHelper) : M Response := fun s =>
  let s' : MState := ⟨s.params, s.fetchLog ++ [.getResource s.params]⟩
  match rh.get_resource s.params with
  | .ok r => .ok (r, s')
  | .error e => .error (.fetchError e, s')

/-- Monadic wrapper for `client.get_work_request(id)`. -/
def getWorkRequestM (c : Client) (wrid : String) : M Response := fun s =>
  .ok (c.get_work_request wrid, ⟨s.params, s.fetchLog ++ [.getWorkRequest wrid]⟩)

/-- Monadic wrapper for `resource_helper.get_get_fn()(identifier)`. -/
def getByIdM (rh : ResourceHelper) (ident : PVal) : M Response := fun s =>
  .ok (rh.get_get_fn ident, ⟨s.params, s.fetchLog ++ [.getById ident]⟩)

/-- Python `str.lower`, character by character (for the state names
this module handles, the same mapping as `String.toLower`). -/
def pyLower (s : String) : String := ⟨s.data.map Char.toLower⟩

/-- Lowercase a list of state names, as
`[state.lower() for state in wait_for_states]`. -/
def loweredStates (wait_for_states : List String) : List String :=
  wait_for_states.map pyLower

/-- `LifecycleStateWaiterBase.get_initial_response`: fetch the current
resource through the resource helper. -/
def LifecycleStateWaiterBase.get_initial_response (rh : ResourceHelper) : M Response :=
  getResourceM rh

/-- `LifecycleStateWaiterBase.get_evaluate_response_lambda`: the Python
lambda `r.data.lifecycle_state and r.data.lifecycle_state.lower() in
lowered_wait_for_states`, as the truthiness of its result. A `None` or
empty lifecycle state short-circuits to falsy. -/
def LifecycleStateWaiterBase.get_evaluate_response_lambda
    (wait_for_states : List String) : Response → Bool := fun r =>
  match r.data.lifecycle_state with
  | none => false
  | some st => st ≠ "" && decide (pyLower st ∈ loweredStates wait_for_states)

/-- `LifecycleStateWaiterBase.get_resource_from_wait_response`: the last
polled response's own payload. -/
def LifecycleStateWaiterBase.get_resource_from_wait_response
    (wait_response : Response) : M RData := fun s =>
  .ok (wait_response.data, s)

/-- `CreateOperationLifecycleStateWaiter.get_initial_response`: read the
new resource's identifier from the operation response (`fail_json` if
falsy); if the identifier parameter resolves, swap it in, fetch once,
and swap the original back — the restore happens only on the
non-raising path, exactly as in the source; if resolution raises
`NotImplementedError`, fall back to a plain fetch. -/
def CreateOperationLifecycleStateWaiter.get_initial_response
    (rh : ResourceHelper) (operation_response : Response) : M Response := fun s =>
  let identifier := operation_response.data.id
  if ¬ identifier.truthy then
    .error (.failJson "Error getting the resource identifier.", s)
  else
    match rh.get_module_resource_id_param with
    | .error _ => getResourceM rh s
    | .ok p =>
        match getParam s.params p with
        | none => .error (.keyError p, s)
        | some id_orig =>
            match getResourceM rh ⟨setParam s.params p identifier, s.fetchLog⟩ with
            | .error es => .error es
            | .ok (resp, s2) => .ok (resp, ⟨setParam s2.params p id_orig, s2.fetchLog⟩)

/-- `WorkRequestWaiter.get_initial_response`: fetch the work request
named by the `opc-work-request-id` response header (`KeyError` if the
header is absent). -/
def WorkRequestWaiter.get_initial_response
    (c : Client) (operation_response : Response) : M Response := fun s =>
  match operation_response.headers.lookup "opc-work-request-id" with
  | some wrid => getWorkRequestM c wrid s
  | none => .error (.keyError "opc-work-request-id", s)

/-- `WorkRequestWaiter.get_evaluate_response_lambda`: the Python lambda
`r.data.status and r.data.status.lower() in lowered_wait_for_states`. -/
def WorkRequestWaiter.get_evaluate_response_lambda
    (wait_for_states : List String) : Response → Bool := fun r =>
  match r.data.status with
  | none => false
  | some st => st ≠ "" && decide (pyLower st ∈ loweredStates wait_for_states)

/-- `WorkRequestWaiter.get_resource_from_wait_response`: re-fetch the
resource through the resource helper and return its payload. -/
def WorkRequestWaiter.get_resource_from_wait_response
    (rh : ResourceHelper) (_wait_response : Response) : M RData := fun s =>
  match getResourceM rh s with
  | .ok (g, s') => .ok (g.data, s')
  | .error es => .error es

/-- One iteration of the resource-list loop in
`CreateOperationWorkRequestWaiter.get_resource_from_wait_response`: an
entry whose `entity_type` attribute exists and equals the target entity
type overwrites the accumulator; any other entry leaves it unchanged. -/
def scanStep (entity_type : String) (acc : PVal) (r : WRResource) : PVal :=
  match r.entity_type with
  | some et => if et = entity_type then r.identifier else acc
  | none => acc

/-- The scan of `CreateOperationWorkRequestWaiter.get_resource_from_wait_response`
over the work request's `resources` list, starting from
`identifier = None`; the loop does not break on a match. -/
def scanIdentifier (entity_type : String) (rs : List WRResource) : PVal :=
  rs.foldl (scanStep entity_type) .none_

/-- Whether a resource entry matches the target entity type, i.e. the
condition under which the loop body overwrites the accumulator. -/
def matchesEntityType (entity_type : String) (r : WRResource) : Bool :=
  match r.entity_type with
  | some et => et = entity_type
  | none => false

/-- `CreateOperationWorkRequestWaiter.get_resource_from_wait_response`:
derive the entity type from the resource type (via the external
`oci_common_utils.get_entity_type`, passed as `entity_type_of`), scan
the work request's resource list, `fail_json` with the serialized work
request payload (via the external `to_dict`) when no identifier was
found, else fetch the resource by that identifier. -/
def CreateOperationWorkRequestWaiter.get_resource_from_wait_response
    (entity_type_of : String → String) (to_dict : RData → String)
    (rh : ResourceHelper) (wait_response : Response) : M RData := fun s =>
  let entity_type := entity_type_of rh.resource_type
  let identifier := scanIdentifier entity_type wait_response.data.resources
  if ¬ identifier.truthy then
    .error (.failJson
      ("Could not get the resource identifier from work request response "
        ++ to_dict wait_response.data), s)
  else
    match getByIdM rh identifier s with
    | .ok (g, s') => .ok (g.data, s')
    | .error es => .error es

/-- `NoneWaiter.wait`: return the operation response's payload
unconditionally, with no polling and no fetch. -/
def NoneWaiter.wait (operation_response : Response) : M RData := fun s =>
  .ok (operation_response.data, s)

/-- `AuditConfigurationLifecycleStateWaiter.get_evaluate_response_lambda`:
the Python lambda `r.data.retention_period_days ==
module.params.get("retention_period_days")`; a missing parameter reads
as `None`. -/
def AuditConfigurationLifecycleStateWaiter.get_evaluate_response_lambda
    (params : Params) : Response → Bool := fun r =>
  decide (r.data.retention_period_days
    = (getParam params "retention_period_days").getD .none_)

/-- Modelled from the spec: the Polling Primitive `oci.wait_until` is
external SDK code (not under `src/`). Per its contract, it evaluates the
predicate on the initial response first, then on each successive polled
response (`polls` is the finite trace of responses the successive
status fetches would observe, its exhaustion standing for the
`max_wait_seconds` timeout), returning the first response satisfying
the predicate or raising the timeout condition. -/
def wait_until (evaluate_response : Response → Bool)
    (initial : Response) (polls : List Response) : Except PyErr Response :=
  if evaluate_response initial then .ok initial
  else
    match polls with
    | [] => .error .timeout
    | p :: rest => wait_until evaluate_response p rest

/-- `BaseWaiter.wait`, shared by every polling waiter variant: if the
`wait` module parameter is falsy, return the operation response object
itself with nothing fetched; otherwise obtain the variant's initial
response, poll it through `wait_until` with the variant's predicate,
and extract the final resource from the terminal response. (The
`wait_timeout` parameter only feeds `max_wait_seconds`, which the trace
model absorbs into `polls`.) The two exits return different Python
objects — the full response versus the extracted payload — captured by
`WaitRet`. -/
def BaseWaiter.wait (getInitial : M Response) (pred : Response → Bool)
    (extract : Response → M RData) (operation_response : Response)
    (polls : List Response) : M (Response ⊕ RData) := fun s =>
  if ¬ optTruthy (getParam s.params "wait") then
    .ok (.inl operation_response, s)
  else
    match getInitial s with
    | .error es => .error es
    | .ok (initial, s1) =>
        match wait_until pred initial polls with
        | .error e => .error (e, s1)
        | .ok wr =>
            match extract wr s1 with
            | .error es => .error es
            | .ok (d, s2) => .ok (.inr d, s2)

/-- Modelled from the spec: the operation-kind selector constants
(`CREATE_OPERATION_KEY`, `UPDATE_OPERATION_KEY`, `DELETE_OPERATION_KEY`,
`ANY_OPERATION_KEY`) live in `oci_common_utils`, which is not under
`src/`; the spec lists them as the distinct selector values create,
update, delete and any (the wildcard for overrides). -/
inductive Operation where
  | create
  | update
  | delete
  | any
deriving DecidableEq, Repr

/-- Waiter-kind selector `LIFECYCLE_STATE_WAITER_KEY`. -/
def LIFECYCLE_STATE_WAITER_KEY : String := "LIFECYCLE_STATE_WAITER"

/-- Waiter-kind selector `WORK_REQUEST_WAITER_KEY`. -/
def WORK_REQUEST_WAITER_KEY : String := "WORK_REQUEST_WAITER"

/-- Waiter-kind selector `NONE_WAITER_KEY`. -/
def NONE_WAITER_KEY : String := "NONE_WAITER_KEY"

/-- The waiter classes of the module; dispatch selects one of these
constructors (the instance's behaviour is run by `runWaiterWait`). -/
inductive WaiterClass where
  | lifecycleState
  | createLifecycleState
  | workRequest
  | createWorkRequest
  | noneWaiter
  | auditConfiguration
deriving DecidableEq, Repr

/-- The module-level `_WAITER_OVERRIDE_MAP`: its sole entry sends the
audit configuration update operation to `NoneWaiter`. -/
def WAITER_OVERRIDE_MAP : List ((String × String × Operation) × WaiterClass) :=
  [(("audit", "configuration", .update), .noneWaiter)]

/-- The lookup logic of `get_waiter_override`, over an arbitrary
override table: first the exact `(namespace, resource_type, operation)`
key, then the `(namespace, resource_type, ANY_OPERATION_KEY)` wildcard
key, else no override. -/
def waiterOverrideLookup (m : List ((String × String × Operation) × WaiterClass))
    (namespace_ resource_type : String) (operation : Operation) : Option WaiterClass :=
  match m.lookup (namespace_, resource_type, operation) with
  | some w => some w
  | none =>
      match m.lookup (namespace_, resource_type, Operation.any) with
      | some w => some w
      | none => none

/-- `get_waiter_override`: the lookup over the module's fixed
`_WAITER_OVERRIDE_MAP`. -/
def get_waiter_override (namespace_ resource_type : String)
    (operation : Operation) : Option WaiterClass :=
  waiterOverrideLookup WAITER_OVERRIDE_MAP namespace_ resource_type operation

/-- `get_waiter`'s selection of the waiter class: an override wins when
present; otherwise the lifecycle-state kind splits on create versus
non-create, the work-request kind likewise, and any other kind yields
`NoneWaiter`. -/
def get_waiter (waiter_type : String) (operation : Operation)
    (namespace_ resource_type : String) : WaiterClass :=
  match get_waiter_override namespace_ resource_type operation with
  | some w => w
  | none =>
      if waiter_type = LIFECYCLE_STATE_WAITER_KEY then
        if operation = Operation.create then .createLifecycleState
        else .lifecycleState
      else if waiter_type = WORK_REQUEST_WAITER_KEY then
        if operation = Operation.create then .createWorkRequest
        else .workRequest
      else .noneWaiter

/-- Run the `wait()` method of the selected waiter class: the five
`BaseWaiter`-derived classes share `BaseWaiter.wait` with their own
initial-response, predicate and extraction methods; `NoneWaiter.wait`
returns the operation payload unconditionally. The audit class builds
its predicate from the live `module.params`, read when `wait()` asks
for the lambda. -/
def runWaiterWait (w : WaiterClass) (c : Client) (rh : ResourceHelper)
    (entity_type_of : String → String) (to_dict : RData → String)
    (wait_for_states : List String) (operation_response : Response)
    (polls : List Response) : M (Response ⊕ RData) :=
  match w with
  | .lifecycleState =>
      BaseWaiter.wait (LifecycleStateWaiterBase.get_initial_response rh)
        (LifecycleStateWaiterBase.get_evaluate_response_lambda wait_for_states)
        LifecycleStateWaiterBase.get_resource_from_wait_response
        operation_response polls
  | .createLifecycleState =>
      BaseWaiter.wait
        (CreateOperationLifecycleStateWaiter.get_initial_response rh operation_response)
        (LifecycleStateWaiterBase.get_evaluate_response_lambda wait_for_states)
        LifecycleStateWaiterBase.get_resource_from_wait_response
        operation_response polls
  | .workRequest =>
      BaseWaiter.wait (WorkRequestWaiter.get_initial_response c operation_response)
        (WorkRequestWaiter.get_evaluate_response_lambda wait_for_states)
        (WorkRequestWaiter.get_resource_from_wait_response rh)
        operation_response polls
  | .createWorkRequest =>
      BaseWaiter.wait (WorkRequestWaiter.get_initial_response c operation_response)
        (WorkRequestWaiter.get_evaluate_response_lambda wait_for_states)
        (CreateOperationWorkRequestWaiter.get_resource_from_wait_response
          entity_type_of to_dict rh)
        operation_response polls
  | .noneWaiter => fun s =>
      match NoneWaiter.wait operation_response s with
      | .ok (d, s') => .ok (.inr d, s')
      | .error es => .error es
  | .auditConfiguration => fun s =>
      BaseWaiter.wait (LifecycleStateWaiterBase.get_initial_response rh)
        (AuditConfigurationLifecycleStateWaiter.get_evaluate_response_lambda s.params)
        LifecycleStateWaiterBase.get_resource_from_wait_response
        operation_response polls s

/-! Concrete sample collaborators and inputs, used to evaluate the
embedded operations at specific points. -/

/-- A get-by-id function whose result records the identifier it was
asked for. -/
def sampleGetFn : PVal → Response := fun i => ⟨{ id := i }, []⟩

/-- A resource helper whose `get_resource` succeeds and reports the
`instance_id` parameter it observed as the fetched resource's `id`. -/
def okFetchRH : ResourceHelper :=
  ⟨"core", "instance", .ok "instance_id",
    fun ps =>
      .ok ⟨{ id := (getParam ps "instance_id").getD .none_,
             lifecycle_state := some "ACTIVE" }, []⟩,
    sampleGetFn⟩

/-- A resource helper whose `get_resource` always raises. -/
def errorFetchRH : ResourceHelper :=
  ⟨"core", "instance", .ok "instance_id",
    fun _ => .error "ServiceError", sampleGetFn⟩

/-- A resource helper for which identifier-parameter resolution raises
`NotImplementedError`. -/
def notApplicableRH : ResourceHelper :=
  ⟨"object_storage", "bucket", .error (),
    fun _ => .ok ⟨{ lifecycle_state := some "ACTIVE" }, []⟩,
    sampleGetFn⟩

/-- A terminal work-request response with exactly one resource entry,
of entity type `instance`, with identifier `id-123`. -/
def wrSampleResponse : Response :=
  ⟨{ status := some "SUCCEEDED",
     resources := [⟨some "instance", .str "id-123"⟩] }, []⟩

/-- A terminal work-request response with an empty resource list. -/
def wrEmptyResponse : Response :=
  ⟨{ status := some "SUCCEEDED", resources := [] }, []⟩

/-- A terminal work-request response with two resource entries of the
target entity type, with distinct identifiers. -/
def wrTwoMatchResponse : Response :=
  ⟨{ status := some "SUCCEEDED",
     resources := [⟨some "instance", .str "id-1"⟩,
                   ⟨some "instance", .str "id-2"⟩] }, []⟩

/-- A client serving `wrSampleResponse` for work request `wr-1` and
`wrEmptyResponse` for every other id. -/
def sampleClient : Client :=
  ⟨fun wrid => if wrid = "wr-1" then wrSampleResponse else wrEmptyResponse⟩

/-- A stand-in for the entity-type naming convention: the identity. -/
def sampleEntityTypeOf : String → String := fun rt => rt

/-- A stand-in serializer for `oci.util.to_dict`. -/
def sampleToDict : RData → String := fun _ => "work-request-payload"

/-- An operation response for a create operation: the new resource's id
in the payload and a work-request id in the headers. -/
def createOpResponse : Response :=
  ⟨{ id := .str "ocid1.x" }, [("opc-work-request-id", "wr-1")]⟩

/-- An operation response whose headers name the work request `wr-2`,
for which `sampleClient` serves an empty resource list. -/
def createOpResponseEmptyWR : Response :=
  ⟨{ id := .str "ocid1.x" }, [("opc-work-request-id", "wr-2")]⟩

/-- Module parameters requesting a wait and a 90-day retention period. -/
def auditParams : Params :=
  [("wait", .bool true), ("retention_period_days", .int 90)]

/-- The audit update operation's response: the returned configuration
still carries the old 5-day retention period. -/
def auditOpResponse : Response :=
  ⟨{ retention_period_days := .int 5 }, [("opc-work-request-id", "wr-9")]⟩

/-- A response none of whose status-like fields is populated. -/
def missingFieldsResponse : Response := ⟨{}, []⟩

/-- A response whose lifecycle state is the empty string. -/
def emptyStateResponse : Response := ⟨{ lifecycle_state := some "" }, []⟩

/-- A response in lifecycle state `Active` (mixed case). -/
def activeResponse : Response := ⟨{ lifecycle_state := some "Active" }, []⟩

/-- A response in lifecycle state `Activ` (a strict prefix of a state
name). -/
def activResponse : Response := ⟨{ lifecycle_state := some "Activ" }, []⟩

/-- A response whose payload carries a 90-day retention period and a
`CREATING` lifecycle state. -/
def retention90Creating : Response :=
  ⟨{ lifecycle_state := some "CREATING", retention_period_days := .int 90 }, []⟩

/-- A response with the same retention period but a different lifecycle
state. -/
def retention90Active : Response :=
  ⟨{ lifecycle_state := some "ACTIVE", retention_period_days := .int 90 }, []⟩

/-! Helper lemmas. -/

/-- Writing back the value a key currently holds undoes an intervening
write to that key. -/
theorem getParam_setParam_cancel (ps : Params) (k : String) (v x : PVal)
    (h : getParam ps k = some v) : setParam (setParam ps k x) k v = ps := by
  induction ps with
  | nil => simp [getParam] at h
  | cons hd tl ih =>
      obtain ⟨k', v'⟩ := hd
      by_cases hk : k' = k
      · subst hk
        simp [getParam] at h
        simp [setParam, h]
      · simp [getParam, hk] at h
        simp [setParam, hk, ih h]

/-- The resource-list scan leaves its accumulator unchanged over a run
of entries none of which matches the entity type. -/
theorem foldl_scanStep_no_match (entity_type : String) (rs : List WRResource)
    (acc : PVal) (h : ∀ r ∈ rs, matchesEntityType entity_type r = false) :
    rs.foldl (scanStep entity_type) acc = acc := by
  induction rs generalizing acc with
  | nil => rfl
  | cons r tl ih =>
      have hr := h r (by simp)
      have hstep : scanStep entity_type acc r = acc := by
        unfold scanStep
        unfold matchesEntityType at hr
        cases het : r.entity_type with
        | none => simp
        | some e =>
            rw [het] at hr
            simp only [decide_eq_false_iff_not] at hr
            simp [hr]
      rw [List.foldl_cons, hstep]
      exact ih _ (fun r' hm => h r' (by simp [hm]))

/-- A matching entry overwrites the accumulator with its identifier. -/
theorem scanStep_match (entity_type : String) (acc : PVal) (r : WRResource)
    (h : matchesEntityType entity_type r = true) :
    scanStep entity_type acc r = r.identifier := by
  unfold scanStep
  unfold matchesEntityType at h
  cases het : r.entity_type with
  | none => rw [het] at h; exact absurd h (by simp)
  | some e =>
      rw [het] at h
      simp only [decide_eq_true_eq] at h
      simp [h]

/-- The scan of a resource list yields the identifier of the last
matching entry: entries after it that do not match leave it in place. -/
theorem scanIdentifier_last_match (entity_type : String)
    (rs₁ rs₂ : List WRResource) (r : WRResource)
    (hm : matchesEntityType entity_type r = true)
    (hafter : ∀ r' ∈ rs₂, matchesEntityType entity_type r' = false) :
    scanIdentifier entity_type (rs₁ ++ r :: rs₂) = r.identifier := by
  unfold scanIdentifier
  rw [List.foldl_append, List.foldl_cons, scanStep_match entity_type _ r hm,
    foldl_scanStep_no_match entity_type rs₂ _ hafter]

/-! Claim theorems. -/

/-- C3: for every `BaseWaiter`-derived waiter class, when the `wait`
module parameter is falsy, `wait()` returns the initiating operation's
response unchanged with the state untouched — no fetch is logged and no
polling occurs. -/
theorem base_waiter_wait_false_no_fetch
    (c : Client) (rh : ResourceHelper) (entity_type_of : String → String)
    (to_dict : RData → String) (wait_for_states : List String)
    (operation_response : Response) (polls : List Response) (s : MState)
    (w : WaiterClass) (hw : w ≠ WaiterClass.noneWaiter)
    (hwait : optTruthy (getParam s.params "wait") = false) :
    runWaiterWait w c rh entity_type_of to_dict wait_for_states
        operation_response polls s
      = .ok (.inl operation_response, s) := by
  cases w
  case noneWaiter => exact absurd rfl hw
  all_goals simp [runWaiterWait, BaseWaiter.wait, hwait]

/-- Witness for C3: the lifecycle-state waiter with `wait=False` returns
the operation response with an empty fetch log. -/
theorem base_waiter_wait_false_no_fetch_witness :
    runWaiterWait WaiterClass.lifecycleState sampleClient okFetchRH
        sampleEntityTypeOf sampleToDict ["ACTIVE"] createOpResponse []
        ⟨[("wait", PVal.bool false)], []⟩
      = .ok (.inl createOpResponse, ⟨[("wait", PVal.bool false)], []⟩) :=
  base_waiter_wait_false_no_fetch _ _ _ _ _ _ _ _ _ (by decide) (by decide)

/-- C4: a polled response whose `lifecycle_state` (respectively
`status`) attribute holds `None` makes the lifecycle-state waiter's
(respectively work-request waiter's) terminal predicate evaluate to
not-terminal; the predicate is total, so no error is raised. -/
theorem evaluate_response_missing_field_false
    (wait_for_states : List String) (r : Response) :
    (r.data.lifecycle_state = none →
      LifecycleStateWaiterBase.get_evaluate_response_lambda wait_for_states r = false)
    ∧ (r.data.status = none →
      WorkRequestWaiter.get_evaluate_response_lambda wait_for_states r = false) := by
  constructor <;> intro h <;>
    simp [LifecycleStateWaiterBase.get_evaluate_response_lambda,
      WorkRequestWaiter.get_evaluate_response_lambda, h]

/-- Witness for C4: both predicates reject a response with no status
fields. -/
theorem evaluate_response_missing_field_false_witness :
    LifecycleStateWaiterBase.get_evaluate_response_lambda ["ACTIVE"]
        missingFieldsResponse = false
    ∧ WorkRequestWaiter.get_evaluate_response_lambda ["SUCCEEDED"]
        missingFieldsResponse = false :=
  ⟨(evaluate_response_missing_field_false ["ACTIVE"] missingFieldsResponse).1 rfl,
   (evaluate_response_missing_field_false ["SUCCEEDED"] missingFieldsResponse).2 rfl⟩

/-- C6: override lookup returns the exact
`(namespace, resource_type, operation)` entry when present, otherwise
the `(namespace, resource_type, ANY_OPERATION)` wildcard entry when
present, otherwise no override; `get_waiter_override` is this lookup
over the module's fixed override map. -/
theorem waiter_override_lookup_order
    (m : List ((String × String × Operation) × WaiterClass))
    (namespace_ resource_type : String) (operation : Operation) :
    (∀ w, m.lookup (namespace_, resource_type, operation) = some w →
      waiterOverrideLookup m namespace_ resource_type operation = some w)
    ∧ (m.lookup (namespace_, resource_type, operation) = none →
      ∀ w, m.lookup (namespace_, resource_type, Operation.any) = some w →
        waiterOverrideLookup m namespace_ resource_type operation = some w)
    ∧ (m.lookup (namespace_, resource_type, operation) = none →
      m.lookup (namespace_, resource_type, Operation.any) = none →
        waiterOverrideLookup m namespace_ resource_type operation = none)
    ∧ get_waiter_override namespace_ resource_type operation
        = waiterOverrideLookup WAITER_OVERRIDE_MAP namespace_ resource_type operation := by
  refine ⟨?_, ?_, ?_, rfl⟩ <;> intros <;> simp [waiterOverrideLookup, *]

/-- Witness for C6: a wildcard entry applies to both the create and the
delete operation when no exact entry exists. -/
theorem waiter_override_lookup_order_witness :
    waiterOverrideLookup [(("a", "b", Operation.any), WaiterClass.noneWaiter)]
        "a" "b" Operation.create = some WaiterClass.noneWaiter
    ∧ waiterOverrideLookup [(("a", "b", Operation.any), WaiterClass.noneWaiter)]
        "a" "b" Operation.delete = some WaiterClass.noneWaiter :=
  ⟨(waiter_override_lookup_order _ "a" "b" Operation.create).2.1 (by decide)
      WaiterClass.noneWaiter (by decide),
   (waiter_override_lookup_order _ "a" "b" Operation.delete).2.1 (by decide)
      WaiterClass.noneWaiter (by decide)⟩

/-- C7: with no applicable override, the lifecycle-state waiter kind
dispatches to the create variant exactly for create operations, the
work-request kind likewise, and every other waiter kind dispatches to
the no-op waiter. -/
theorem get_waiter_generic_dispatch
    (waiter_type : String) (operation : Operation)
    (namespace_ resource_type : String)
    (hov : get_waiter_override namespace_ resource_type operation = none) :
    (waiter_type = LIFECYCLE_STATE_WAITER_KEY →
      get_waiter waiter_type operation namespace_ resource_type
        = if operation = Operation.create then WaiterClass.createLifecycleState
          else WaiterClass.lifecycleState)
    ∧ (waiter_type = WORK_REQUEST_WAITER_KEY →
      get_waiter waiter_type operation namespace_ resource_type
        = if operation = Operation.create then WaiterClass.createWorkRequest
          else WaiterClass.workRequest)
    ∧ (waiter_type ≠ LIFECYCLE_STATE_WAITER_KEY →
      waiter_type ≠ WORK_REQUEST_WAITER_KEY →
      get_waiter waiter_type operation namespace_ resource_type
        = WaiterClass.noneWaiter) := by
  refine ⟨?_, ?_, ?_⟩
  · intro h
    simp [get_waiter, hov, h]
  · intro h
    simp [get_waiter, hov, h, LIFECYCLE_STATE_WAITER_KEY, WORK_REQUEST_WAITER_KEY]
  · intro h1 h2
    rw [LIFECYCLE_STATE_WAITER_KEY] at h1
    rw [WORK_REQUEST_WAITER_KEY] at h2
    simp [get_waiter, hov, LIFECYCLE_STATE_WAITER_KEY, WORK_REQUEST_WAITER_KEY, h1, h2]

/-- Witness for C7: dispatch at concrete inputs for each branch. -/
theorem get_waiter_generic_dispatch_witness :
    get_waiter LIFECYCLE_STATE_WAITER_KEY Operation.create "core" "instance"
      = WaiterClass.createLifecycleState
    ∧ get_waiter WORK_REQUEST_WAITER_KEY Operation.update "core" "instance"
      = WaiterClass.workRequest
    ∧ get_waiter NONE_WAITER_KEY Operation.delete "core" "instance"
      = WaiterClass.noneWaiter :=
  ⟨(get_waiter_generic_dispatch _ _ _ _ (by decide)).1 rfl,
   (get_waiter_generic_dispatch _ _ _ _ (by decide)).2.1 rfl,
   (get_waiter_generic_dispatch _ _ _ _ (by decide)).2.2 (by decide) (by decide)⟩

/-- C9: when identifier-parameter resolution raises
`NotImplementedError` (the NotApplicable condition) and the operation
response carries an identifier, the create-operation lifecycle waiter
falls back to a plain fetch with the configuration as-is: the result is
exactly `getResourceM`, which never changes `module.params`, and any
error it surfaces is a fetch error, never `NotImplementedError`. -/
theorem create_lifecycle_not_applicable_fallback
    (rh : ResourceHelper) (operation_response : Response) (s : MState)
    (hni : rh.get_module_resource_id_param = Except.error ())
    (hid : operation_response.data.id.truthy = true) :
    CreateOperationLifecycleStateWaiter.get_initial_response rh operation_response s
      = getResourceM rh s
    ∧ (∀ r s', getResourceM rh s = .ok (r, s') → s'.params = s.params)
    ∧ (∀ e s', getResourceM rh s = .error (e, s') →
        s'.params = s.params ∧ e ≠ PyErr.notImplemented) := by
  refine ⟨?_, ?_, ?_⟩
  · simp [CreateOperationLifecycleStateWaiter.get_initial_response, hni, hid]
  · intro r s' h
    unfold getResourceM at h
    cases hg : rh.get_resource s.params with
    | ok g =>
        rw [hg] at h
        simp only [Except.ok.injEq, Prod.mk.injEq] at h
        rw [← h.2]
    | error e => rw [hg] at h; exact absurd h (by simp)
  · intro e s' h
    unfold getResourceM at h
    cases hg : rh.get_resource s.params with
    | ok g => rw [hg] at h; exact absurd h (by simp)
    | error e' =>
        rw [hg] at h
        simp only [Except.error.injEq, Prod.mk.injEq] at h
        refine ⟨by rw [← h.2], ?_⟩
        rw [← h.1]
        simp

/-- Witness for C9: the fallback at a concrete resource helper whose
resolver raises `NotImplementedError`. -/
theorem create_lifecycle_not_applicable_fallback_witness :
    CreateOperationLifecycleStateWaiter.get_initial_response notApplicableRH
        createOpResponse ⟨[], []⟩
      = getResourceM notApplicableRH ⟨[], []⟩ :=
  (create_lifecycle_not_applicable_fallback notApplicableRH createOpResponse
    ⟨[], []⟩ rfl (by decide)).1

/-- C10: in the create-operation work-request waiter's resource-list
scan, when a matching entry is followed only by non-matching entries
(in particular when several entries match, for the last of them), the
identifier taken is that entry's — the loop does not stop at the first
match — and the final get-by-id fetch uses exactly that identifier. -/
theorem create_work_request_last_match_wins
    (entity_type : String) (rs₁ rs₂ : List WRResource) (r : WRResource)
    (entity_type_of : String → String) (to_dict : RData → String)
    (rh : ResourceHelper) (wait_response : Response) (s : MState)
    (hmatch : matchesEntityType entity_type r = true)
    (hafter : ∀ r' ∈ rs₂, matchesEntityType entity_type r' = false)
    (hres : wait_response.data.resources = rs₁ ++ r :: rs₂)
    (hety : entity_type_of rh.resource_type = entity_type)
    (htruthy : r.identifier.truthy = true) :
    scanIdentifier entity_type (rs₁ ++ r :: rs₂) = r.identifier
    ∧ CreateOperationWorkRequestWaiter.get_resource_from_wait_response
        entity_type_of to_dict rh wait_response s
      = .ok ((rh.get_get_fn r.identifier).data,
          ⟨s.params, s.fetchLog ++ [.getById r.identifier]⟩) := by
  have hscan := scanIdentifier_last_match entity_type rs₁ rs₂ r hmatch hafter
  refine ⟨hscan, ?_⟩
  simp only [CreateOperationWorkRequestWaiter.get_resource_from_wait_response,
    hety, hres, hscan, htruthy, getByIdM]
  simp

/-- Witness for C10: with two matching entries `id-1` then `id-2`, the
fetch uses `id-2`. -/
theorem create_work_request_last_match_wins_witness :
    CreateOperationWorkRequestWaiter.get_resource_from_wait_response
        sampleEntityTypeOf sampleToDict okFetchRH wrTwoMatchResponse ⟨[], []⟩
      = .ok ((okFetchRH.get_get_fn (.str "id-2")).data,
          ⟨[], [.getById (.str "id-2")]⟩) :=
  (create_work_request_last_match_wins "instance"
    [⟨some "instance", .str "id-1"⟩] [] ⟨some "instance", .str "id-2"⟩
    sampleEntityTypeOf sampleToDict okFetchRH wrTwoMatchResponse ⟨[], []⟩
    (by decide) (by simp) rfl rfl (by decide)).2

/-- C5: for the create-operation work-request waiter with waiting
enabled, a resolvable work-request header and an immediately terminal
work request: when the resource list has exactly one entry matching the
target entity type, with identifier `id-123`, `wait()` returns the
payload fetched for `id-123` through the get-by-id function; when no
entry matches, `wait()` fails fatally with a message carrying the
serialized work-request payload. -/
theorem create_work_request_wait_extraction
    (c : Client) (rh : ResourceHelper) (entity_type_of : String → String)
    (to_dict : RData → String) (wait_for_states : List String)
    (operation_response : Response) (polls : List Response) (s : MState)
    (wrid : String) (R : Response) (entity_type : String)
    (hwait : optTruthy (getParam s.params "wait") = true)
    (hhdr : operation_response.headers.lookup "opc-work-request-id" = some wrid)
    (hwr : c.get_work_request wrid = R)
    (hterm : WorkRequestWaiter.get_evaluate_response_lambda wait_for_states R = true)
    (hety : entity_type_of rh.resource_type = entity_type) :
    (∀ rs₁ e rs₂, R.data.resources = rs₁ ++ e :: rs₂ →
      (∀ r' ∈ rs₁, matchesEntityType entity_type r' = false) →
      (∀ r' ∈ rs₂, matchesEntityType entity_type r' = false) →
      matchesEntityType entity_type e = true →
      e.identifier = .str "id-123" →
      runWaiterWait .createWorkRequest c rh entity_type_of to_dict
          wait_for_states operation_response polls s
        = .ok (.inr ((rh.get_get_fn (.str "id-123")).data),
            ⟨s.params, (s.fetchLog ++ [.getWorkRequest wrid]) ++ [.getById (.str "id-123")]⟩))
    ∧ ((∀ r' ∈ R.data.resources, matchesEntityType entity_type r' = false) →
      runWaiterWait .createWorkRequest c rh entity_type_of to_dict
          wait_for_states operation_response polls s
        = .error (.failJson
            ("Could not get the resource identifier from work request response "
              ++ to_dict R.data),
            ⟨s.params, s.fetchLog ++ [.getWorkRequest wrid]⟩)) := by
  have hinit : WorkRequestWaiter.get_initial_response c operation_response s
      = .ok (R, ⟨s.params, s.fetchLog ++ [.getWorkRequest wrid]⟩) := by
    simp only [WorkRequestWaiter.get_initial_response, hhdr, getWorkRequestM, hwr]
  have hpoll : wait_until
      (WorkRequestWaiter.get_evaluate_response_lambda wait_for_states) R polls
      = .ok R := by
    unfold wait_until
    rw [hterm]
    simp
  constructor
  · intro rs₁ e rs₂ hres hbefore hafter hmatch hid
    have hscan := scanIdentifier_last_match entity_type rs₁ rs₂ e hmatch hafter
    have htr : PVal.truthy (.str "id-123") = true := by decide
    simp only [runWaiterWait, BaseWaiter.wait, hwait, not_true, hinit, hpoll,
      CreateOperationWorkRequestWaiter.get_resource_from_wait_response,
      hety, hres, hscan, hid, htr, getByIdM]
    simp
  · intro hall
    have hscan : scanIdentifier entity_type R.data.resources = .none_ := by
      unfold scanIdentifier
      exact foldl_scanStep_no_match entity_type R.data.resources .none_ hall
    simp only [runWaiterWait, BaseWaiter.wait, hwait, not_true, hinit, hpoll,
      CreateOperationWorkRequestWaiter.get_resource_from_wait_response,
      hety, hscan, getByIdM]
    simp [PVal.truthy]

/-- Witness for C5: a concrete client and helper; work request `wr-1`
has the single matching entry `id-123`, work request `wr-2` has none. -/
theorem create_work_request_wait_extraction_witness :
    runWaiterWait .createWorkRequest sampleClient okFetchRH
        sampleEntityTypeOf sampleToDict ["SUCCEEDED"] createOpResponse []
        ⟨[("wait", PVal.bool true)], []⟩
      = .ok (.inr ((okFetchRH.get_get_fn (.str "id-123")).data),
          ⟨[("wait", PVal.bool true)],
           [.getWorkRequest "wr-1", .getById (.str "id-123")]⟩)
    ∧ runWaiterWait .createWorkRequest sampleClient okFetchRH
        sampleEntityTypeOf sampleToDict ["SUCCEEDED"] createOpResponseEmptyWR []
        ⟨[("wait", PVal.bool true)], []⟩
      = .error (.failJson
          ("Could not get the resource identifier from work request response "
            ++ sampleToDict wrEmptyResponse.data),
          ⟨[("wait", PVal.bool true)], [.getWorkRequest "wr-2"]⟩) :=
  ⟨(create_work_request_wait_extraction sampleClient okFetchRH
      sampleEntityTypeOf sampleToDict ["SUCCEEDED"] createOpResponse []
      ⟨[("wait", PVal.bool true)], []⟩ "wr-1" wrSampleResponse "instance"
      (by decide) (by decide) (by decide) (by decide) rfl).1
    [] ⟨some "instance", .str "id-123"⟩ [] rfl (by simp) (by simp)
    (by decide) rfl,
   (create_work_request_wait_extraction sampleClient okFetchRH
      sampleEntityTypeOf sampleToDict ["SUCCEEDED"] createOpResponseEmptyWR []
      ⟨[("wait", PVal.bool true)], []⟩ "wr-2" wrEmptyResponse "instance"
      (by decide) (by decide) (by decide) (by decide) rfl).2
    (by simp [wrEmptyResponse])⟩

/-- C1 (counterexample to the claim as stated): with a resolvable
identifier parameter and a fetch that raises, the method propagates the
error with the identifier parameter still overwritten by the new
resource's identifier — the original value `orig` is not restored on
the exception path. -/
theorem create_lifecycle_no_restore_on_fetch_error :
    CreateOperationLifecycleStateWaiter.get_initial_response errorFetchRH
        createOpResponse ⟨[("instance_id", .str "orig")], []⟩
      = .error (.fetchError "ServiceError",
          ⟨[("instance_id", .str "ocid1.x")],
           [.getResource [("instance_id", .str "ocid1.x")]]⟩)
    ∧ ([("instance_id", PVal.str "ocid1.x")] : Params)
        ≠ [("instance_id", PVal.str "orig")] :=
  ⟨rfl, by decide⟩

/-- C1 as amended: when the identifier parameter is resolvable and
currently bound, exactly one fetch is performed and it observes the
parameter overwritten with the newly created identifier; on a
successful fetch the original value is restored exactly before the
method returns, but when the fetch raises, the exception propagates
with the parameter left overwritten (no restoration on that path). -/
theorem create_lifecycle_swap_fetch_restore
    (rh : ResourceHelper) (operation_response : Response) (s : MState)
    (p : String) (id_orig : PVal)
    (hid : operation_response.data.id.truthy = true)
    (hp : rh.get_module_resource_id_param = Except.ok p)
    (horig : getParam s.params p = some id_orig) :
    (∀ r, rh.get_resource (setParam s.params p operation_response.data.id) = .ok r →
      CreateOperationLifecycleStateWaiter.get_initial_response rh operation_response s
        = .ok (r, ⟨s.params,
            s.fetchLog ++ [.getResource (setParam s.params p operation_response.data.id)]⟩))
    ∧ (∀ e, rh.get_resource (setParam s.params p operation_response.data.id) = .error e →
      CreateOperationLifecycleStateWaiter.get_initial_response rh operation_response s
        = .error (.fetchError e,
            ⟨setParam s.params p operation_response.data.id,
             s.fetchLog ++ [.getResource (setParam s.params p operation_response.data.id)]⟩)) := by
  constructor
  · intro r hfetch
    simp only [CreateOperationLifecycleStateWaiter.get_initial_response, hid, hp,
      horig, getResourceM, hfetch]
    simp [getParam_setParam_cancel s.params p id_orig operation_response.data.id horig]
  · intro e hfetch
    simp only [CreateOperationLifecycleStateWaiter.get_initial_response, hid, hp,
      horig, getResourceM, hfetch]
    simp

/-- Witness for C1 as amended: the success path at a concrete helper
whose fetch reports the identifier parameter it observed; the fetch ran
under `ocid1.x` and the original parameter value is restored. -/
theorem create_lifecycle_swap_fetch_restore_witness :
    CreateOperationLifecycleStateWaiter.get_initial_response okFetchRH
        createOpResponse ⟨[("instance_id", .str "orig")], []⟩
      = .ok (⟨{ id := .str "ocid1.x", lifecycle_state := some "ACTIVE" }, []⟩,
          ⟨[("instance_id", .str "orig")],
           [.getResource [("instance_id", .str "ocid1.x")]]⟩) :=
  (create_lifecycle_swap_fetch_restore okFetchRH createOpResponse
      ⟨[("instance_id", .str "orig")], []⟩ "instance_id" (.str "orig")
      (by decide) rfl (by decide)).1
    ⟨{ id := .str "ocid1.x", lifecycle_state := some "ACTIVE" }, []⟩ rfl

/-- C8 (counterexample to the claim as stated): the empty string's
lowercased form is a member of the lowercased WaitForStates `[""]`,
yet the predicate does not match it — the truthiness guard
short-circuits before the membership test. -/
theorem empty_state_never_matches :
    LifecycleStateWaiterBase.get_evaluate_response_lambda [""] emptyStateResponse = false
    ∧ ∃ t ∈ ([""] : List String), pyLower "" = pyLower t :=
  ⟨by decide, by decide⟩

/-- C8 as amended: for every non-empty state string, terminal matching
is case-insensitive and exact — the state matches iff its lowercased
form equals the lowercased form of some member of WaitForStates — for
the lifecycle-state and the work-request predicates alike; the empty
string never matches. -/
theorem terminal_state_match_case_insensitive
    (wait_for_states : List String) (r : Response) (st : String) :
    (r.data.lifecycle_state = some st → st ≠ "" →
      (LifecycleStateWaiterBase.get_evaluate_response_lambda wait_for_states r = true
        ↔ ∃ t ∈ wait_for_states, pyLower st = pyLower t))
    ∧ (r.data.status = some st → st ≠ "" →
      (WorkRequestWaiter.get_evaluate_response_lambda wait_for_states r = true
        ↔ ∃ t ∈ wait_for_states, pyLower st = pyLower t))
    ∧ (r.data.lifecycle_state = some "" →
      LifecycleStateWaiterBase.get_evaluate_response_lambda wait_for_states r = false)
    ∧ (r.data.status = some "" →
      WorkRequestWaiter.get_evaluate_response_lambda wait_for_states r = false) := by
  refine ⟨?_, ?_, ?_, ?_⟩
  · intro h hne
    simp only [LifecycleStateWaiterBase.get_evaluate_response_lambda, h,
      loweredStates, List.mem_map, Bool.and_eq_true, decide_eq_true_eq, ne_eq,
      hne, not_false_eq_true, decide_True, true_and]
    constructor
    · rintro ⟨t, ht, he⟩
      exact ⟨t, ht, he.symm⟩
    · rintro ⟨t, ht, he⟩
      exact ⟨t, ht, he.symm⟩
  · intro h hne
    simp only [WorkRequestWaiter.get_evaluate_response_lambda, h,
      loweredStates, List.mem_map, Bool.and_eq_true, decide_eq_true_eq, ne_eq,
      hne, not_false_eq_true, decide_True, true_and]
    constructor
    · rintro ⟨t, ht, he⟩
      exact ⟨t, ht, he.symm⟩
    · rintro ⟨t, ht, he⟩
      exact ⟨t, ht, he.symm⟩
  · intro h
    simp [LifecycleStateWaiterBase.get_evaluate_response_lambda, h]
  · intro h
    simp [WorkRequestWaiter.get_evaluate_response_lambda, h]

/-- Witness for C8 as amended: `Active` matches `["ACTIVE"]`; the
strict prefix `Activ` does not. -/
theorem terminal_state_match_case_insensitive_witness :
    LifecycleStateWaiterBase.get_evaluate_response_lambda ["ACTIVE"] activeResponse = true
    ∧ LifecycleStateWaiterBase.get_evaluate_response_lambda ["ACTIVE"] activResponse = false := by
  constructor
  · exact ((terminal_state_match_case_insensitive ["ACTIVE"] activeResponse
      "Active").1 rfl (by decide)).mpr ⟨"ACTIVE", by decide, by decide⟩
  · have h := (terminal_state_match_case_insensitive ["ACTIVE"] activResponse
      "Activ").1 rfl (by decide)
    cases hb : LifecycleStateWaiterBase.get_evaluate_response_lambda ["ACTIVE"] activResponse
    · rfl
    · obtain ⟨t, ht, he⟩ := h.mp hb
      simp only [List.mem_singleton] at ht
      subst ht
      exact absurd he (by decide)

/-- C2 (counterexample to the claim as stated): dispatch for the audit
configuration update with the work-request waiter kind yields the
`NoneWaiter` override, whose `wait()` returns the operation payload
immediately — with no fetch and no polling — even though the returned
configuration's `retention_period_days` (5) differs from the requested
value (90). -/
theorem audit_override_returns_immediately :
    get_waiter WORK_REQUEST_WAITER_KEY Operation.update "audit" "configuration"
      = WaiterClass.noneWaiter
    ∧ runWaiterWait WaiterClass.noneWaiter sampleClient okFetchRH
        sampleEntityTypeOf sampleToDict ["SUCCEEDED"] auditOpResponse []
        ⟨auditParams, []⟩
      = .ok (.inr auditOpResponse.data, ⟨auditParams, []⟩)
    ∧ auditOpResponse.data.retention_period_days
        ≠ (getParam auditParams "retention_period_days").getD .none_ :=
  ⟨by decide, rfl, by decide⟩

/-- C2 as amended: the override key (audit, configuration, UPDATE) maps
to `NoneWaiter`, so dispatch bypasses the generic work-request logic
even for the work-request waiter kind, and the resulting `wait()`
returns the operation payload immediately without polling; the
audit-configuration specialization's predicate — defined but not
registered in the override map — compares `retention_period_days` with
the requested parameter value and is independent of lifecycle state. -/
theorem audit_override_dispatch_and_predicate
    (c : Client) (rh : ResourceHelper) (entity_type_of : String → String)
    (to_dict : RData → String) (wait_for_states : List String)
    (operation_response : Response) (polls : List Response) (s : MState) :
    get_waiter WORK_REQUEST_WAITER_KEY Operation.update "audit" "configuration"
      = WaiterClass.noneWaiter
    ∧ runWaiterWait WaiterClass.noneWaiter c rh entity_type_of to_dict
        wait_for_states operation_response polls s
      = .ok (.inr operation_response.data, s)
    ∧ (∀ params r r', r.data.retention_period_days = r'.data.retention_period_days →
        AuditConfigurationLifecycleStateWaiter.get_evaluate_response_lambda params r
          = AuditConfigurationLifecycleStateWaiter.get_evaluate_response_lambda params r')
    ∧ (∀ params r,
        AuditConfigurationLifecycleStateWaiter.get_evaluate_response_lambda params r = true
          ↔ r.data.retention_period_days
              = (getParam params "retention_period_days").getD .none_) := by
  refine ⟨by decide, rfl, ?_, ?_⟩
  · intro params r r' h
    simp [AuditConfigurationLifecycleStateWaiter.get_evaluate_response_lambda, h]
  · intro params r
    simp [AuditConfigurationLifecycleStateWaiter.get_evaluate_response_lambda]

/-- Witness for C2 as amended: the audit predicate gives the same
verdict on responses differing only in lifecycle state, and accepts the
response whose retention period equals the requested 90 days. -/
theorem audit_override_dispatch_and_predicate_witness :
    AuditConfigurationLifecycleStateWaiter.get_evaluate_response_lambda
        [("retention_period_days", PVal.int 90)] retention90Creating
      = AuditConfigurationLifecycleStateWaiter.get_evaluate_response_lambda
        [("retention_period_days", PVal.int 90)] retention90Active
    ∧ AuditConfigurationLifecycleStateWaiter.get_evaluate_response_lambda
        [("retention_period_days", PVal.int 90)] retention90Creating = true :=
  ⟨(audit_override_dispatch_and_predicate sampleClient okFetchRH
      sampleEntityTypeOf sampleToDict [] auditOpResponse [] ⟨[], []⟩).2.2.1
      [("retention_period_days", PVal.int 90)] retention90Creating
      retention90Active rfl,
   ((audit_override_dispatch_and_predicate sampleClient okFetchRH
      sampleEntityTypeOf sampleToDict [] auditOpResponse [] ⟨[], []⟩).2.2.2
      [("retention_period_days", PVal.int 90)] retention90Creating).mpr (by decide)⟩

end OciWaitUtils
